/-
Verification of the FeedbackAI-Analyzer retrieval-augmented agent core.

Shallow embedding of the Python sources:
  * backend/agent/core.py            — the LangGraph agent decision loop
  * backend/agent/tools/feedback_search.py — grounded feedback search tool
  * app/agent/storage/vector_store.py — lazy vector-store / chunking pipeline
  * evaluation/retrievers.py         — retriever factory (rerank credential check)
  * evaluation/evaluator.py          — evaluation harness (metrics, comparison)

External capability providers (chat model, embeddings, web search, rerank)
are modelled as function parameters; exceptions are modelled with `Except`.
-/
import Mathlib

namespace FeedbackAI

/-! ## Agent decision loop (backend/agent/core.py)

The LangGraph graph built by `FeedbackAnalyzer._build_agent` has two nodes:
`agent` (the model call) and `action` (the tool node).  `should_continue`
routes `agent → action` when the last message carries tool calls and
`agent → END` otherwise; `action → agent` is unconditional.  We embed the
conversation as a list of messages and the compiled graph as a fuel-indexed
recursion; the chat model is a parameter that may fail (`Except`), mirroring
provider exceptions. -/

/-- A model-issued tool-call request (LangChain `tool_call` entry). -/
structure ToolCall where
  id : Nat
  name : String
  args : String
  deriving Repr, DecidableEq

/-- The chat model's reply: text content plus zero or more tool calls. -/
structure AIMessage where
  content : String
  tool_calls : List ToolCall
  deriving Repr, DecidableEq

/-- One entry of the `AgentState.messages` transcript. -/
inductive Msg where
  | human (content : String)
  | ai (content : String) (tool_calls : List ToolCall)
  | tool (tool_call_id : Nat) (content : String)
  deriving Repr, DecidableEq

/-- A chat model: maps the transcript to a reply, or fails like a provider
exception would. -/
def Model : Type := List Msg → Except String AIMessage

/-- A tool executor: result text for a dispatched tool call (the `ToolNode`). -/
def Tools : Type := ToolCall → String

/-- Embeds `should_continue` (core.py lines 78–82): continue to the tool node iff the
last message has tool calls (Python truthiness of `tool_calls`). -/
def should_continue (msgs : List Msg) : Bool :=
  match msgs.getLast? with
  | some (Msg.ai _ tcs) => !tcs.isEmpty
  | _ => false

/-- The transcript after one `agent` step that produced `r` followed by the
`action` node: the AI message is appended, then one tool message per requested
call (results keyed by the call id). -/
def stepTranscript (tools : Tools) (msgs : List Msg) (r : AIMessage) : List Msg :=
  (msgs ++ [Msg.ai r.content r.tool_calls]) ++
    r.tool_calls.map (fun tc => Msg.tool tc.id (tools tc))

/-- The compiled graph's execution, fuel-indexed (the runtime bounds graph
steps externally; the repository code itself sets no bound).  Returns
`.ok (some c)` when an `agent` step produced a reply without tool calls (the
`"end"` edge), `.ok none` when fuel ran out before that, `.error e` when the
model call raised. -/
def runLoop (model : Model) (tools : Tools) : Nat → List Msg → Except String (Option String)
  | 0, _ => .ok none
  | n + 1, msgs =>
    match model msgs with
    | .error e => .error e
    | .ok r =>
      if r.tool_calls.isEmpty then .ok (some r.content)
      else runLoop model tools n (stepTranscript tools msgs r)

/-- Fallback text returned when no final response was captured
(core.py line 131). -/
def noResponseFallback : String :=
  "I apologize, but I couldn't generate a response. Please try again."

/-- Embeds `FeedbackAnalyzer.analyze` (core.py lines 111–134): seeds the transcript
with one `HumanMessage`, streams the graph, captures the content of the last
agent reply without tool calls, returns `final_response or fallback`, and
converts any raised exception into an error string. -/
def analyze (model : Model) (tools : Tools) (fuel : Nat) (query : String) : String :=
  match runLoop model tools fuel [Msg.human query] with
  | .error e => "An error occurred while analyzing your query: " ++ e
  | .ok none => noResponseFallback
  | .ok (some c) => if c = "" then noResponseFallback else c

/-! ## Vector store pipeline (app/agent/storage/vector_store.py)

`FeedbackVectorStore._setup_vector_store` loads CSV rows, sets each
document's `page_content` from the `feedback_text` column, filters out
blank documents, splits them into chunks, and hands the chunks to the
embedding provider.  The three `raise ValueError` sites are the
`EmptyCorpusError` of the spec.  The chunker itself is library code. -/

/-- One row of the ingested corpus (CSV columns per the loader's
`metadata_columns`).  Only `feedback_text` feeds the pipeline. -/
structure FeedbackRow where
  feedback_id : String
  source : String
  date : String
  user_id : String
  feedback_text : String
  sentiment : String
  deriving Repr, DecidableEq

/-- Embeds `doc.page_content = doc.metadata.get("feedback_text", "")`
(vector_store.py line 57). -/
def pageContent (r : FeedbackRow) : String := r.feedback_text

/-- Modelled from the spec: the Chunker (`RecursiveCharacterTextSplitter`)
is external library code not under src/.  Spec §3: text is split "into
overlapping windows of a configured maximum size; a record with text shorter
than the window yields exactly one chunk".  Fuel-indexed sliding-window
recursion over the character list. -/
def chunkWindows (chunkSize step : Nat) : Nat → List Char → List (List Char)
  | 0, cs => [cs]
  | n + 1, cs =>
    if cs.length ≤ chunkSize then [cs]
    else cs.take chunkSize :: chunkWindows chunkSize step n (cs.drop step)

/-- Modelled from the spec: split one document's text into overlapping
windows of at most `chunkSize` characters advancing by
`chunkSize - overlap`; empty text yields no chunks. -/
def splitText (chunkSize overlap : Nat) (s : String) : List String :=
  if s = "" then []
  else (chunkWindows chunkSize (chunkSize - overlap) s.length s.data).map
    (fun cs => String.mk cs)

/-- Python `str.strip()`: drop leading and trailing whitespace
(structural recursion over the character list so that it evaluates). -/
def pyStrip (s : String) : String :=
  String.mk (((s.data.dropWhile Char.isWhitespace).reverse.dropWhile
    Char.isWhitespace).reverse)

/-- Python truthiness filter `doc.page_content and doc.page_content.strip()`
(vector_store.py line 60): keep a document iff its text is non-empty and
non-blank. -/
def keepDoc (s : String) : Bool := s ≠ "" && pyStrip s ≠ ""

/-- The documents surviving the blank filter, as their page contents. -/
def filteredDocs (rows : List FeedbackRow) : List String :=
  (rows.map pageContent).filter keepDoc

/-- The chunks remaining after filtering: blank rows are excluded before
chunking, the rest are split. -/
def corpusChunks (chunkSize overlap : Nat) (rows : List FeedbackRow) : List String :=
  (filteredDocs rows).flatMap (splitText chunkSize overlap)

/-- Embeds `FeedbackVectorStore._setup_vector_store` (vector_store.py lines 41–90):
raise when no documents were loaded, when none survive the blank filter, or
when chunking yields nothing; otherwise the chunks are embedded and indexed
(the embedding provider is the external boundary). -/
def setup_vector_store (chunkSize overlap : Nat) (rows : List FeedbackRow) :
    Except String (List String) :=
  if rows.isEmpty then .error "No documents loaded from CSV file"
  else
    let docs := filteredDocs rows
    if docs.isEmpty then .error "No valid documents with content found"
    else
      let chunks := docs.flatMap (splitText chunkSize overlap)
      if chunks.isEmpty then .error "No chunks created from documents"
      else .ok chunks

/-! ### Lazy memoization (vector_store.py lines 29–39)

`get_retriever` / `get_vector_store` cache their result in `self._retriever`
/ `self._vector_store`.  We embed the object state explicitly and count how
many times `_setup_vector_store` runs. -/

/-- The mutable fields of a `FeedbackVectorStore` plus an instrumentation
counter for `_setup_vector_store` runs. -/
structure StoreState (VS R : Type) where
  vector_store : Option VS
  retriever : Option R
  builds : Nat
  deriving Repr, DecidableEq

/-- Embeds `get_vector_store` (vector_store.py lines 35–39): build and cache on
first access, return the cached handle afterwards. -/
def get_vector_store {VS R : Type} (setup : Unit → VS) (s : StoreState VS R) :
    VS × StoreState VS R :=
  match s.vector_store with
  | some vs => (vs, s)
  | none =>
    let vs := setup ()
    (vs, { s with vector_store := some vs, builds := s.builds + 1 })

/-- Embeds `get_retriever` (vector_store.py lines 29–33): derive the retriever from
the (lazily built) vector store on first access, cache it, return the cached
handle afterwards. -/
def get_retriever {VS R : Type} (setup : Unit → VS) (as_retriever : VS → R)
    (s : StoreState VS R) : R × StoreState VS R :=
  match s.retriever with
  | some r => (r, s)
  | none =>
    let p := get_vector_store setup s
    let r := as_retriever p.1
    (r, { p.2 with retriever := some r })

/-! ## Retriever factory (evaluation/retrievers.py)

`RetrieverFactory.create_rerank_retriever` checks `COHERE_API_KEY` first and
raises before touching any provider; in the success path it only composes
retriever objects (`as_retriever`, `CohereRerank()`,
`ContextualCompressionRetriever` are constructors — no network).  We thread
an explicit provider-call counter to make "no call occurred" provable. -/

/-- Counters for calls made to the external providers; retrieval operations
would increment these, object construction does not. -/
structure ProviderCalls where
  embedding_calls : Nat
  vector_store_calls : Nat
  rerank_calls : Nat
  deriving Repr, DecidableEq

/-- The configuration of the compression retriever assembled by
`create_rerank_retriever`: a similarity base retriever fetching `base_k`
candidates plus the Cohere reranker on top. -/
structure RerankRetrieverCfg where
  base_k : Nat
  deriving Repr, DecidableEq

/-- Embeds `RetrieverFactory.create_rerank_retriever` (retrievers.py lines 69–80):
pre-flight credential check, then pure object assembly. -/
def create_rerank_retriever (env : String → Option String) (base_k : Nat)
    (ps : ProviderCalls) : Except String RerankRetrieverCfg × ProviderCalls :=
  match env "COHERE_API_KEY" with
  | none =>
    (.error "COHERE_API_KEY environment variable is required for rerank retriever", ps)
  | some _ => (.ok { base_k := base_k }, ps)

/-! ## Feedback search tool (backend/agent/tools/feedback_search.py)

`FeedbackSearchTool.search` invokes the RAG chain and converts any raised
exception into a prefixed error string; the chain (retriever + chat model)
is the external provider boundary. -/

/-- The error marker prefixing degraded results
(feedback_search.py lines 47 and 107). -/
def searchErrorMarker : String := "Error searching feedback database: "

/-- Embeds `FeedbackSearchTool.search` (feedback_search.py lines 40–48): total by
construction — a chain failure becomes a prefixed error string instead of
propagating. -/
def search (rag_chain : String → Except String String) (query : String) : String :=
  match rag_chain query with
  | .ok result => result
  | .error e => searchErrorMarker ++ e

/-! ## Evaluation harness (evaluation/evaluator.py)

`RAGEvaluator.compare_retrievers` loops over requested retriever names,
skips unknown ones, turns per-retriever exceptions into error rows, and
sorts the resulting table by `answer_relevancy` descending when the quality
columns are present.  `_evaluate_single_retriever` scores a run with Ragas
when available and falls back to `_calculate_basic_metrics` otherwise.
Latencies and costs are embedded as rationals. -/

/-- The per-retriever measurements gathered by the evaluation loop
(evaluator.py lines 82–104): answers, retrieved contexts, per-question
latencies, metered cost. -/
structure RunData where
  answers : List String
  contexts : List (List String)
  latencies : List ℚ
  total_cost : ℚ
  deriving Repr, DecidableEq

/-- The four Ragas quality scores. -/
structure RagasMetrics where
  context_recall : ℚ
  faithfulness : ℚ
  answer_relevancy : ℚ
  context_precision : ℚ
  deriving Repr, DecidableEq

/-- One row of the comparison table: either a full metrics record
(evaluator.py lines 129–138 / 153–163) or the error row appended when a
retriever's construction or evaluation raised (lines 196–199). -/
inductive EvalRow where
  | metrics (retriever : String)
      (context_recall faithfulness answer_relevancy context_precision : ℚ)
      (avg_latency_s : ℚ) (total_cost_usd : ℚ) (num_questions : Nat)
      (note : Option String)
  | errorRow (retriever : String) (error : String)
  deriving Repr, DecidableEq

/-- The `retriever` column of a row. -/
def rowName : EvalRow → String
  | .metrics n _ _ _ _ _ _ _ _ => n
  | .errorRow n _ => n

/-- The `answer_relevancy` column; `none` stands for the NaN an error row
carries in the DataFrame. -/
def rowRelevancy : EvalRow → Option ℚ
  | .metrics _ _ _ ar _ _ _ _ _ => some ar
  | .errorRow _ _ => none

/-- The `note` column flagging degraded scoring. -/
def rowNote : EvalRow → Option String
  | .metrics _ _ _ _ _ _ _ _ note => note
  | .errorRow _ _ => none

/-- Whether a row carries the quality-metric columns. -/
def isMetricsRow : EvalRow → Bool
  | .metrics _ _ _ _ _ _ _ _ _ => true
  | .errorRow _ _ => false

/-- Embeds `np.mean` over a list of rationals. -/
def mean (l : List ℚ) : ℚ := l.sum / l.length

/-- Python `len(s.split())`: number of whitespace-separated words. -/
def wordCount (s : String) : Nat :=
  ((s.split Char.isWhitespace).filter (· != "")).length

/-- Embeds `RAGEvaluator._calculate_basic_metrics` (evaluator.py lines 147–163):
heuristic proxies from answer/context word-length ratios, flagged with the
`note` column. -/
def calculate_basic_metrics (retriever_name : String) (answers : List String)
    (contexts : List (List String)) (questions : List String)
    (latencies : List ℚ) (total_cost : ℚ) : EvalRow :=
  let avg_answer_length : ℚ := mean (answers.map (fun a => (wordCount a : ℚ)))
  let avg_context_length : ℚ :=
    mean (contexts.map (fun cl => (wordCount (String.intercalate " " cl) : ℚ)))
  .metrics retriever_name
    (min (avg_context_length / 100) 1)
    (min (avg_answer_length / 50) 1)
    (8 / 10)
    (min (avg_context_length / 200) 1)
    (mean latencies) total_cost questions.length
    (some "Basic metrics used (Ragas unavailable)")

/-- Embeds the `RAGEvaluator._evaluate_single_retriever` scoring stage (evaluator.py
lines 114–145): Ragas when importable and successful, otherwise the basic
heuristics.  The run measurements `d` and the Ragas outcome are parameters
(both cross the provider boundary). -/
def evaluate_single_retriever (ragasAvailable : Bool)
    (ragasEval : Except String RagasMetrics) (retriever_name : String)
    (questions : List String) (d : RunData) : EvalRow :=
  if ragasAvailable then
    match ragasEval with
    | .ok m =>
      .metrics retriever_name m.context_recall m.faithfulness m.answer_relevancy
        m.context_precision (mean d.latencies) d.total_cost questions.length none
    | .error _ =>
      calculate_basic_metrics retriever_name d.answers d.contexts questions
        d.latencies d.total_cost
  else
    calculate_basic_metrics retriever_name d.answers d.contexts questions
      d.latencies d.total_cost

/-- Embeds `RetrieverFactory.get_available_retrievers` (retrievers.py lines 92–101):
the keys of the factory dictionary — the six known strategies. -/
def available_retriever_names : List String :=
  ["naive", "bm25", "multi_query", "parent_document", "rerank", "ensemble"]

/-- Comparator for `sort_values('answer_relevancy', ascending=False)`:
relevancy descending, rows without the column (NaN) last
(pandas default `na_position='last'`). -/
def relevancyGE (a b : EvalRow) : Bool :=
  match rowRelevancy a, rowRelevancy b with
  | some x, some y => decide (y ≤ x)
  | some _, none => true
  | none, some _ => false
  | none, none => true

/-- The sort key as a relation. -/
def relevancyDescOrder (a b : EvalRow) : Prop := relevancyGE a b = true

instance : DecidableRel relevancyDescOrder :=
  fun a b => show Decidable (relevancyGE a b = true) from inferInstance

lemma relevancyGE_total (a b : EvalRow) :
    relevancyGE a b = true ∨ relevancyGE b a = true := by
  unfold relevancyGE
  cases rowRelevancy a with
  | none => cases rowRelevancy b <;> simp
  | some x =>
    cases rowRelevancy b with
    | none => simp
    | some y => simpa using le_total y x

lemma relevancyGE_trans (a b c : EvalRow) (h1 : relevancyGE a b = true)
    (h2 : relevancyGE b c = true) : relevancyGE a c = true := by
  unfold relevancyGE at h1 h2 ⊢
  cases ha : rowRelevancy a <;> cases hb : rowRelevancy b <;>
    cases hc : rowRelevancy c <;> simp_all
  exact le_trans h2 h1

instance : IsTotal EvalRow relevancyDescOrder := ⟨relevancyGE_total⟩

instance : IsTrans EvalRow relevancyDescOrder := ⟨relevancyGE_trans⟩

/-- The sorting step of `compare_retrievers` (evaluator.py lines 204–206):
sort only when the table is non-empty and has the `context_recall` column.
`sort_values` dispatches to numpy's quicksort, which runs a stable insertion
sort on the small partitions these ≤6-row tables are, so the single-key sort
is embedded as a stable insertion sort by relevancy descending. -/
def sortResults (rows : List EvalRow) : List EvalRow :=
  if rows.isEmpty || !(rows.any isMetricsRow) then rows
  else rows.insertionSort relevancyDescOrder

/-- The per-name loop of `compare_retrievers` (evaluator.py lines 179–199):
skip unknown names; on success append the metrics row, on an exception from
retriever construction or evaluation append the error row.
`runRetriever` covers everything inside the `try` that can raise. -/
def compareLoop (ragasAvailable : Bool)
    (ragas : String → RunData → Except String RagasMetrics)
    (runRetriever : String → Except String RunData)
    (questions : List String) : List String → List EvalRow
  | [] => []
  | n :: rest =>
    if available_retriever_names.contains n then
      (match runRetriever n with
        | .ok d => evaluate_single_retriever ragasAvailable (ragas n d) n questions d
        | .error e => EvalRow.errorRow n e) ::
        compareLoop ragasAvailable ragas runRetriever questions rest
    else compareLoop ragasAvailable ragas runRetriever questions rest

/-- Embeds `RAGEvaluator.compare_retrievers` (evaluator.py lines 165–214): run the
loop, then sort the table.  Total by construction — per-retriever failures
are data, never exceptions. -/
def compare_retrievers (ragasAvailable : Bool)
    (ragas : String → RunData → Except String RagasMetrics)
    (runRetriever : String → Except String RunData)
    (questions : List String) (names : List String) : List EvalRow :=
  sortResults (compareLoop ragasAvailable ragas runRetriever questions names)

/-- The row `compare_retrievers` contributes for one requested name:
none for unknown names, the error row when the `try` body raised, else the
evaluated metrics row. -/
def rowFor (ragasAvailable : Bool)
    (ragas : String → RunData → Except String RagasMetrics)
    (runRetriever : String → Except String RunData)
    (questions : List String) (n : String) : Option EvalRow :=
  if available_retriever_names.contains n then
    some (match runRetriever n with
      | .ok d => evaluate_single_retriever ragasAvailable (ragas n d) n questions d
      | .error e => EvalRow.errorRow n e)
  else none

/-- The `avg_latency_s` column; `none` for error rows. -/
def rowLatency : EvalRow → Option ℚ
  | .metrics _ _ _ _ _ lat _ _ _ => some lat
  | .errorRow _ _ => none

/-! ## Theorems -/

/-- A model that requests the feedback tool on every turn (the runaway case
of the spec's §8 "Runaway guard"). -/
def alwaysToolModel : Model :=
  fun _ => .ok ⟨"", [⟨0, "feedback_search_tool", "dark mode"⟩]⟩

lemma string_append_ne_empty (s t : String) (h : s ≠ "") : s ++ t ≠ "" := by
  intro hc
  apply h
  apply String.ext
  have hd : s.data ++ t.data = [] := by
    have := congrArg String.data hc
    simpa [String.data_append] using this
  simpa using (List.append_eq_nil.mp hd).1

lemma runLoop_ok_some_origin (model : Model) (tools : Tools) :
    ∀ (fuel : Nat) (msgs : List Msg) (c : String),
      runLoop model tools fuel msgs = .ok (some c) →
      ∃ t r, model t = .ok r ∧ r.tool_calls = [] ∧ r.content = c := by
  intro fuel
  induction fuel with
  | zero => intro msgs c h; simp [runLoop] at h
  | succ n ih =>
    intro msgs c h
    unfold runLoop at h
    cases hm : model msgs with
    | error e => rw [hm] at h; exact absurd h (by simp)
    | ok r =>
      rw [hm] at h
      dsimp only at h
      by_cases he : r.tool_calls.isEmpty
      · rw [if_pos he] at h
        refine ⟨msgs, r, hm, List.isEmpty_iff.mp he, ?_⟩
        simpa using h
      · rw [if_neg he] at h
        exact ih _ _ h

/-- C1 (amended).  The decision loop terminates exactly when the model's
reply carries no tool calls: (i) whenever `runLoop` produces a final answer,
that answer is the content of a model reply whose `tool_calls` list is
empty; (ii) for a model whose first reply has no tool calls and non-empty
text, `analyze` returns that text after the first decision step.  (When the
terminal text is empty, `analyze` substitutes the fixed fallback — see the
counterexample.) -/
theorem C1_loop_terminates_on_no_tool_calls :
    (∀ (model : Model) (tools : Tools) (fuel : Nat) (msgs : List Msg) (c : String),
      runLoop model tools fuel msgs = .ok (some c) →
      ∃ t r, model t = .ok r ∧ r.tool_calls = [] ∧ r.content = c) ∧
    (∀ (f : List Msg → AIMessage) (tools : Tools) (fuel : Nat) (q : String),
      1 ≤ fuel →
      (f [Msg.human q]).tool_calls = [] →
      (f [Msg.human q]).content ≠ "" →
      analyze (fun ms => .ok (f ms)) tools fuel q = (f [Msg.human q]).content) := by
  constructor
  · exact fun model tools fuel => runLoop_ok_some_origin model tools fuel
  · intro f tools fuel q hfuel htc hcontent
    obtain ⟨k, rfl⟩ : ∃ k, fuel = k + 1 := ⟨fuel - 1, by omega⟩
    unfold analyze runLoop
    simp [htc, hcontent]

/-- Witness for C1: a concrete one-reply model with non-empty text. -/
theorem C1_witness :
    analyze (fun _ => .ok ⟨"Users like dark mode.", []⟩) (fun _ => "") 3 "q" =
      "Users like dark mode." :=
  C1_loop_terminates_on_no_tool_calls.2 (fun _ => ⟨"Users like dark mode.", []⟩)
    (fun _ => "") 3 "q" (by decide) rfl (by decide)

/-- Counterexample for C1 as stated: when the tool-call-free reply has empty
text, `analyze` does not return that text — it returns the fixed fallback
(`final_response or fallback`, core.py line 131), which is non-empty. -/
theorem C1_counterexample :
    analyze (fun _ => .ok ⟨"", []⟩) (fun _ => "") 3 "q" = noResponseFallback ∧
    noResponseFallback ≠ "" := by
  constructor
  · rfl
  · decide

/-- C2: the repository's loop has no iteration cap of its own.  For the
always-tool-calling model, no matter how large the externally imposed step
bound is, the loop never reaches a terminating reply; `analyze` ends with
the generic fallback (or, under the runtime's recursion-limit exception,
the generic error string) — never a 10-iteration "could not complete"
cutoff. -/
theorem C2_no_iteration_cap :
    ∀ (tools : Tools) (fuel : Nat),
      (∀ msgs, runLoop alwaysToolModel tools fuel msgs = .ok none) ∧
      (∀ q, analyze alwaysToolModel tools fuel q = noResponseFallback) := by
  intro tools fuel
  have hloop : ∀ (n : Nat) (msgs : List Msg),
      runLoop alwaysToolModel tools n msgs = .ok none := by
    intro n
    induction n with
    | zero => intro msgs; rfl
    | succ k ih =>
      intro msgs
      unfold runLoop alwaysToolModel
      simp only []
      exact ih _
  exact ⟨hloop fuel, fun q => by unfold analyze; rw [hloop fuel [Msg.human q]]⟩

/-- C3: `analyze` is total by construction and never returns the empty
string: loop-level exceptions become the prefixed error string, an answerless
run becomes the fixed fallback, and an empty final text is replaced by the
fallback as well. -/
theorem C3_analyze_never_empty :
    ∀ (model : Model) (tools : Tools) (fuel : Nat) (q : String),
      analyze model tools fuel q ≠ "" ∧
      (∀ e, runLoop model tools fuel [Msg.human q] = .error e →
        analyze model tools fuel q =
          "An error occurred while analyzing your query: " ++ e) ∧
      (runLoop model tools fuel [Msg.human q] = .ok none →
        analyze model tools fuel q = noResponseFallback) := by
  intro model tools fuel q
  refine ⟨?_, ?_, ?_⟩
  · unfold analyze
    cases h : runLoop model tools fuel [Msg.human q] with
    | error e =>
      show "An error occurred while analyzing your query: " ++ e ≠ ""
      exact string_append_ne_empty _ e (by decide)
    | ok o =>
      cases o with
      | none =>
        show noResponseFallback ≠ ""
        decide
      | some c =>
        show (if c = "" then noResponseFallback else c) ≠ ""
        by_cases hc : c = ""
        · rw [if_pos hc]; decide
        · rw [if_neg hc]; exact hc
  · intro e he; unfold analyze; rw [he]
  · intro he; unfold analyze; rw [he]

/-- Witness for C3: a model whose decision call raises. -/
theorem C3_witness :
    analyze (fun _ => .error "boom") (fun _ => "") 1 "q" ≠ "" ∧
    analyze (fun _ => .error "boom") (fun _ => "") 1 "q" =
      "An error occurred while analyzing your query: " ++ "boom" :=
  ⟨(C3_analyze_never_empty (fun _ => .error "boom") (fun _ => "") 1 "q").1,
    (C3_analyze_never_empty (fun _ => .error "boom") (fun _ => "") 1 "q").2.1 "boom" rfl⟩

/-- C4: constructing the rerank retriever without `COHERE_API_KEY` in the
environment fails with the credential error and leaves every provider-call
counter untouched — the check precedes any retrieval or network call. -/
theorem C4_rerank_missing_credential :
    ∀ (env : String → Option String) (base_k : Nat) (ps : ProviderCalls),
      env "COHERE_API_KEY" = none →
      create_rerank_retriever env base_k ps =
        (.error "COHERE_API_KEY environment variable is required for rerank retriever",
          ps) := by
  intro env base_k ps h
  unfold create_rerank_retriever
  rw [h]

/-- Witness for C4: an empty environment. -/
theorem C4_witness :
    create_rerank_retriever (fun _ => none) 20 ⟨0, 0, 0⟩ =
      (.error "COHERE_API_KEY environment variable is required for rerank retriever",
        (⟨0, 0, 0⟩ : ProviderCalls)) :=
  C4_rerank_missing_credential (fun _ => none) 20 ⟨0, 0, 0⟩ rfl

lemma chunkWindows_ne_nil (chunkSize step fuel : Nat) (cs : List Char) :
    chunkWindows chunkSize step fuel cs ≠ [] := by
  cases fuel with
  | zero => simp [chunkWindows]
  | succ n =>
    unfold chunkWindows
    split <;> simp

lemma splitText_ne_nil (chunkSize overlap : Nat) (s : String) (h : s ≠ "") :
    splitText chunkSize overlap s ≠ [] := by
  unfold splitText
  rw [if_neg h]
  simpa using chunkWindows_ne_nil chunkSize (chunkSize - overlap) s.length s.data

lemma corpusChunks_ne_nil_of_filtered (chunkSize overlap : Nat)
    (rows : List FeedbackRow) (h : filteredDocs rows ≠ []) :
    corpusChunks chunkSize overlap rows ≠ [] := by
  unfold corpusChunks
  cases hd : filteredDocs rows with
  | nil => exact absurd hd h
  | cons d rest =>
    have hdne : d ≠ "" := by
      have hmem : d ∈ filteredDocs rows := by rw [hd]; exact List.mem_cons_self d rest
      have hk := (List.mem_filter.mp hmem).2
      simp only [keepDoc, Bool.and_eq_true, decide_eq_true_eq] at hk
      exact hk.1
    simp only [List.flatMap_cons]
    intro hc
    exact splitText_ne_nil chunkSize overlap d hdne (List.append_eq_nil.mp hc).1

/-- C5: `_setup_vector_store` raises exactly when zero chunks remain after
filtering; every document that reaches the chunker is non-blank; and a
corpus with surviving chunks builds successfully over exactly those
chunks. -/
theorem C5_empty_corpus_error :
    ∀ (chunkSize overlap : Nat) (rows : List FeedbackRow),
      ((∃ e, setup_vector_store chunkSize overlap rows = .error e) ↔
        corpusChunks chunkSize overlap rows = []) ∧
      (∀ s ∈ filteredDocs rows, pyStrip s ≠ "") ∧
      (corpusChunks chunkSize overlap rows ≠ [] →
        setup_vector_store chunkSize overlap rows =
          .ok (corpusChunks chunkSize overlap rows)) := by
  intro chunkSize overlap rows
  have hblank : ∀ s ∈ filteredDocs rows, pyStrip s ≠ "" := by
    intro s hs
    have hk := (List.mem_filter.mp hs).2
    simp only [keepDoc, Bool.and_eq_true, decide_eq_true_eq] at hk
    exact hk.2
  have hok : corpusChunks chunkSize overlap rows ≠ [] →
      setup_vector_store chunkSize overlap rows =
        .ok (corpusChunks chunkSize overlap rows) := by
    intro hc
    have hrows : ¬rows.isEmpty := by
      intro h
      apply hc
      rw [List.isEmpty_iff.mp h]
      rfl
    have hdocs : ¬(filteredDocs rows).isEmpty := by
      intro h
      apply hc
      unfold corpusChunks
      rw [List.isEmpty_iff.mp h]
      rfl
    unfold setup_vector_store
    rw [if_neg hrows, if_neg hdocs,
      if_neg (show ¬((filteredDocs rows).flatMap (splitText chunkSize overlap)).isEmpty from
        fun h => hc (List.isEmpty_iff.mp h))]
    rfl
  refine ⟨⟨?_, ?_⟩, hblank, hok⟩
  · rintro ⟨e, he⟩
    by_contra hc
    rw [hok hc] at he
    exact absurd he (by simp)
  · intro hc
    by_cases hrows : rows.isEmpty
    · exact ⟨"No documents loaded from CSV file", by unfold setup_vector_store; rw [if_pos hrows]⟩
    · have hdocs : (filteredDocs rows).isEmpty := by
        by_contra hd
        exact corpusChunks_ne_nil_of_filtered chunkSize overlap rows
          (fun h => hd (by rw [h]; rfl)) hc
      exact ⟨"No valid documents with content found",
        by unfold setup_vector_store; rw [if_neg hrows]; simp only [hdocs]; rfl⟩

/-- A corpus with one blank row and one real row. -/
def exRows : List FeedbackRow :=
  [⟨"1", "Survey", "2024-01-01", "u1", "   ", "Neutral"⟩,
   ⟨"2", "AppStoreReview", "2024-01-02", "u2", "Love the dark mode", "Positive"⟩]

/-- Witness for C5: the mixed corpus builds over the non-blank row's chunks,
and the surviving document is non-blank. -/
theorem C5_witness :
    setup_vector_store 1000 100 exRows = .ok (corpusChunks 1000 100 exRows) ∧
    pyStrip "Love the dark mode" ≠ "" :=
  ⟨(C5_empty_corpus_error 1000 100 exRows).2.2 (by decide),
   (C5_empty_corpus_error 1000 100 exRows).2.1 "Love the dark mode" (by decide)⟩

/-- C6: from a fresh store, the first retriever access builds the index
exactly once; a second access returns the identical memoized handle with the
state unchanged, so querying twice yields identical ordered results. -/
theorem C6_lazy_build_memoized :
    ∀ {VS R : Type} (setup : Unit → VS) (as_retriever : VS → R)
      (query : R → String → List String) (s0 : StoreState VS R) (q : String),
      s0.vector_store = none → s0.retriever = none →
      (get_retriever setup as_retriever s0).2.builds = s0.builds + 1 ∧
      (get_retriever setup as_retriever (get_retriever setup as_retriever s0).2).1 =
        (get_retriever setup as_retriever s0).1 ∧
      (get_retriever setup as_retriever (get_retriever setup as_retriever s0).2).2 =
        (get_retriever setup as_retriever s0).2 ∧
      query (get_retriever setup as_retriever (get_retriever setup as_retriever s0).2).1 q =
        query (get_retriever setup as_retriever s0).1 q := by
  intro VS R setup as_retriever query s0 q hvs hr
  simp [get_retriever, get_vector_store, hvs, hr]

/-- Witness for C6: a concrete fresh store over `Nat` handles. -/
theorem C6_witness :
    (get_retriever (fun _ => (7 : Nat)) (fun v : Nat => v + 1)
      (⟨none, none, 0⟩ : StoreState Nat Nat)).2.builds = 0 + 1 ∧
    (get_retriever (fun _ => (7 : Nat)) (fun v : Nat => v + 1)
        ((get_retriever (fun _ => (7 : Nat)) (fun v : Nat => v + 1)
          (⟨none, none, 0⟩ : StoreState Nat Nat)).2)).2 =
      (get_retriever (fun _ => (7 : Nat)) (fun v : Nat => v + 1)
        (⟨none, none, 0⟩ : StoreState Nat Nat)).2 :=
  ⟨(C6_lazy_build_memoized (fun _ => (7 : Nat)) (fun v : Nat => v + 1)
      (fun (_ : Nat) (_ : String) => ([] : List String)) ⟨none, none, 0⟩ "q" rfl rfl).1,
   (C6_lazy_build_memoized (fun _ => (7 : Nat)) (fun v : Nat => v + 1)
      (fun (_ : Nat) (_ : String) => ([] : List String)) ⟨none, none, 0⟩ "q" rfl rfl).2.2.1⟩

/-- C8: when Ragas is unavailable or its evaluation raised, the harness
returns the heuristic record — metrics computed from answer-length and
context-length ratios — and that record carries the explicit degraded-quality
flag in its `note` column. -/
theorem C8_degraded_metrics_flagged :
    ∀ (ragasAvailable : Bool) (ragasEval : Except String RagasMetrics)
      (retriever_name : String) (questions : List String) (d : RunData),
      (ragasAvailable = false ∨ ∃ e, ragasEval = .error e) →
      evaluate_single_retriever ragasAvailable ragasEval retriever_name questions d =
        calculate_basic_metrics retriever_name d.answers d.contexts questions
          d.latencies d.total_cost ∧
      rowNote (evaluate_single_retriever ragasAvailable ragasEval retriever_name
          questions d) = some "Basic metrics used (Ragas unavailable)" ∧
      calculate_basic_metrics retriever_name d.answers d.contexts questions
          d.latencies d.total_cost =
        EvalRow.metrics retriever_name
          (min (mean (d.contexts.map
            (fun cl => (wordCount (String.intercalate " " cl) : ℚ))) / 100) 1)
          (min (mean (d.answers.map (fun a => (wordCount a : ℚ))) / 50) 1)
          (8 / 10)
          (min (mean (d.contexts.map
            (fun cl => (wordCount (String.intercalate " " cl) : ℚ))) / 200) 1)
          (mean d.latencies) d.total_cost questions.length
          (some "Basic metrics used (Ragas unavailable)") := by
  intro ragasAvailable ragasEval retriever_name questions d h
  have hbasic : evaluate_single_retriever ragasAvailable ragasEval retriever_name
      questions d =
      calculate_basic_metrics retriever_name d.answers d.contexts questions
        d.latencies d.total_cost := by
    rcases h with h | ⟨e, he⟩
    · rw [h]; rfl
    · cases ragasAvailable with
      | false => rfl
      | true => rw [he]; rfl
  refine ⟨hbasic, ?_, rfl⟩
  rw [hbasic]
  rfl

/-- Witness for C8: Ragas unavailable on a concrete run. -/
theorem C8_witness :
    evaluate_single_retriever false (.ok ⟨0, 0, 0, 0⟩) "naive" [] ⟨[], [], [], 0⟩ =
      calculate_basic_metrics "naive" [] [] [] [] 0 ∧
    rowNote (evaluate_single_retriever false (.ok ⟨0, 0, 0, 0⟩) "naive" [] ⟨[], [], [], 0⟩) =
      some "Basic metrics used (Ragas unavailable)" :=
  ⟨(C8_degraded_metrics_flagged false (.ok ⟨0, 0, 0, 0⟩) "naive" [] ⟨[], [], [], 0⟩
      (Or.inl rfl)).1,
   (C8_degraded_metrics_flagged false (.ok ⟨0, 0, 0, 0⟩) "naive" [] ⟨[], [], [], 0⟩
      (Or.inl rfl)).2.1⟩

/-- C9: the grounded feedback search is total and wraps provider failures in
the error marker: a successful chain result is returned as is, a raised chain
error comes back as the prefixed error string instead of propagating. -/
theorem C9_search_never_raises :
    ∀ (rag_chain : String → Except String String) (query : String),
      (∀ r, rag_chain query = .ok r → search rag_chain query = r) ∧
      (∀ e, rag_chain query = .error e →
        search rag_chain query = searchErrorMarker ++ e) := by
  intro rag_chain query
  constructor
  · intro r h; unfold search; rw [h]
  · intro e h; unfold search; rw [h]

/-- Witness for C9: a failing chain and a succeeding chain. -/
theorem C9_witness :
    search (fun _ => .error "quota exceeded") "q" =
      searchErrorMarker ++ "quota exceeded" ∧
    search (fun _ => .ok "Users want dark mode") "q" = "Users want dark mode" :=
  ⟨(C9_search_never_raises (fun _ => .error "quota exceeded") "q").2
      "quota exceeded" rfl,
   (C9_search_never_raises (fun _ => .ok "Users want dark mode") "q").1
      "Users want dark mode" rfl⟩

lemma sortResults_perm (rows : List EvalRow) : (sortResults rows).Perm rows := by
  unfold sortResults
  split
  · exact List.Perm.refl rows
  · exact List.perm_insertionSort relevancyDescOrder rows

lemma mem_sortResults {a : EvalRow} {rows : List EvalRow} :
    a ∈ sortResults rows ↔ a ∈ rows :=
  (sortResults_perm rows).mem_iff

lemma rowName_evaluate_single (ragasAvailable : Bool)
    (ragasEval : Except String RagasMetrics) (n : String)
    (questions : List String) (d : RunData) :
    rowName (evaluate_single_retriever ragasAvailable ragasEval n questions d) = n := by
  cases ragasAvailable with
  | false => rfl
  | true => cases ragasEval <;> rfl

lemma rowRelevancy_none_of_not_metrics {r : EvalRow} (h : isMetricsRow r = false) :
    rowRelevancy r = none := by
  cases r with
  | metrics _ _ _ _ _ _ _ _ _ => simp [isMetricsRow] at h
  | errorRow _ _ => rfl

lemma compareLoop_eq_filterMap (ragasAvailable : Bool)
    (ragas : String → RunData → Except String RagasMetrics)
    (runRetriever : String → Except String RunData) (questions : List String) :
    ∀ names, compareLoop ragasAvailable ragas runRetriever questions names =
      names.filterMap (rowFor ragasAvailable ragas runRetriever questions) := by
  intro names
  induction names with
  | nil => rfl
  | cons n rest ih =>
    simp only [compareLoop, List.filterMap_cons, rowFor, ih]
    by_cases h : available_retriever_names.contains n = true
    · rw [if_pos h, if_pos h]
    · rw [if_neg h, if_neg h]

lemma rowName_rowFor {ragasAvailable : Bool}
    {ragas : String → RunData → Except String RagasMetrics}
    {runRetriever : String → Except String RunData} {questions : List String}
    {n : String} {row : EvalRow}
    (h : rowFor ragasAvailable ragas runRetriever questions n = some row) :
    rowName row = n ∧ n ∈ available_retriever_names := by
  unfold rowFor at h
  by_cases hc : available_retriever_names.contains n
  · rw [if_pos hc] at h
    refine ⟨?_, List.mem_of_elem_eq_true hc⟩
    cases hr : runRetriever n with
    | ok d =>
      rw [hr] at h
      simp only [Option.some_inj] at h
      rw [← h]
      exact rowName_evaluate_single ragasAvailable (ragas n d) n questions d
    | error e =>
      rw [hr] at h
      simp only [Option.some_inj] at h
      rw [← h]
      rfl
  · rw [if_neg hc] at h
    exact absurd h (by simp)

/-- C7 (amended).  The comparison table is sorted by answer-relevancy
descending (rows without the quality columns compare as NaN, i.e. last) and
is a permutation of the rows the per-retriever loop produced; average
latency plays no role in the order. -/
theorem C7_sorted_by_relevancy_desc :
    ∀ (ragasAvailable : Bool)
      (ragas : String → RunData → Except String RagasMetrics)
      (runRetriever : String → Except String RunData)
      (questions : List String) (names : List String),
      List.Pairwise relevancyDescOrder
        (compare_retrievers ragasAvailable ragas runRetriever questions names) ∧
      (compare_retrievers ragasAvailable ragas runRetriever questions names).Perm
        (compareLoop ragasAvailable ragas runRetriever questions names) := by
  intro ragasAvailable ragas runRetriever questions names
  constructor
  · unfold compare_retrievers sortResults
    split
    · next hcond =>
      rcases Bool.or_eq_true_iff.mp hcond with hnil | hnone
      · rw [List.isEmpty_iff.mp hnil]
        exact List.Pairwise.nil
      · apply List.pairwise_of_forall_mem_list
        intro a ha b hb
        have hna : rowRelevancy a = none := by
          apply rowRelevancy_none_of_not_metrics
          by_contra hm
          have : (compareLoop ragasAvailable ragas runRetriever questions names).any
              isMetricsRow = true :=
            List.any_eq_true.mpr ⟨a, ha, eq_true_of_ne_false hm⟩
          simp [this] at hnone
        have hnb : rowRelevancy b = none := by
          apply rowRelevancy_none_of_not_metrics
          by_contra hm
          have : (compareLoop ragasAvailable ragas runRetriever questions names).any
              isMetricsRow = true :=
            List.any_eq_true.mpr ⟨b, hb, eq_true_of_ne_false hm⟩
          simp [this] at hnone
        unfold relevancyDescOrder relevancyGE
        rw [hna, hnb]
    · exact List.sorted_insertionSort relevancyDescOrder _
  · exact sortResults_perm _

/-- Ragas outcome used by the concrete evaluation runs: both retrievers get
the same answer-relevancy. -/
def exRagas : String → RunData → Except String RagasMetrics :=
  fun _ _ => .ok ⟨0, 0, 1 / 2, 0⟩

/-- Concrete runs: `naive` measures a 2-second question, `bm25` a 1-second
one. -/
def exRun : String → Except String RunData :=
  fun n => if n = "naive" then .ok ⟨[], [], [2], 0⟩ else .ok ⟨[], [], [1], 0⟩

/-- Counterexample for C7 as stated: with equal answer-relevancy (1/2 each),
the higher-latency `naive` row (2 s) stays ahead of the lower-latency `bm25`
row (1 s) — ties are not broken by lower latency. -/
theorem C7_counterexample :
    compare_retrievers true exRagas exRun [] ["naive", "bm25"] =
      [EvalRow.metrics "naive" 0 0 (1 / 2) 0 2 0 0 none,
       EvalRow.metrics "bm25" 0 0 (1 / 2) 0 1 0 0 none] ∧
    (1 : ℚ) < 2 := by
  have hm2 : mean [(2 : ℚ)] = 2 := by simp [mean]
  have hm1 : mean [(1 : ℚ)] = 1 := by simp [mean]
  have he1 : exRun "naive" = .ok ⟨[], [], [2], 0⟩ := by simp [exRun]
  have he2 : exRun "bm25" = .ok ⟨[], [], [1], 0⟩ := by simp [exRun]
  have hloop : compareLoop true exRagas exRun [] ["naive", "bm25"] =
      [EvalRow.metrics "naive" 0 0 (1 / 2) 0 2 0 0 none,
       EvalRow.metrics "bm25" 0 0 (1 / 2) 0 1 0 0 none] := by
    simp only [compareLoop, available_retriever_names, exRagas,
      evaluate_single_retriever, he1, he2]
    norm_num [hm2, hm1]
  have hord : relevancyDescOrder
      (EvalRow.metrics "naive" 0 0 (1 / 2) 0 2 0 0 none)
      (EvalRow.metrics "bm25" 0 0 (1 / 2) 0 1 0 0 none) := by
    unfold relevancyDescOrder relevancyGE rowRelevancy
    simp
  refine ⟨?_, by norm_num⟩
  unfold compare_retrievers
  rw [hloop]
  unfold sortResults
  rw [if_neg (by decide)]
  simp only [List.insertionSort, List.orderedInsert]
  rw [if_pos hord]

/-- C10: per-retriever failure isolation in `compare_retrievers` — every row
in the table belongs to a requested, known strategy name (so unknown names
yield no row); a known requested name whose construction or evaluation
raised contributes exactly its error row; and a known requested name whose
run succeeded is still evaluated and contributes its metrics row.  The
comparison itself is total: failures are data, not exceptions. -/
theorem C10_per_retriever_isolation :
    ∀ (ragasAvailable : Bool)
      (ragas : String → RunData → Except String RagasMetrics)
      (runRetriever : String → Except String RunData)
      (questions : List String) (names : List String),
      (∀ row ∈ compare_retrievers ragasAvailable ragas runRetriever questions names,
        rowName row ∈ available_retriever_names ∧ rowName row ∈ names) ∧
      (∀ n e, n ∈ names → n ∈ available_retriever_names →
        runRetriever n = .error e →
        EvalRow.errorRow n e ∈
          compare_retrievers ragasAvailable ragas runRetriever questions names) ∧
      (∀ n d, n ∈ names → n ∈ available_retriever_names →
        runRetriever n = .ok d →
        evaluate_single_retriever ragasAvailable (ragas n d) n questions d ∈
          compare_retrievers ragasAvailable ragas runRetriever questions names) := by
  intro ragasAvailable ragas runRetriever questions names
  refine ⟨?_, ?_, ?_⟩
  · intro row hrow
    have hmem : row ∈ compareLoop ragasAvailable ragas runRetriever questions names := by
      unfold compare_retrievers at hrow
      exact mem_sortResults.mp hrow
    rw [compareLoop_eq_filterMap] at hmem
    obtain ⟨n, hn, hfor⟩ := List.mem_filterMap.mp hmem
    obtain ⟨hname, hav⟩ := rowName_rowFor hfor
    exact ⟨hname ▸ hav, hname ▸ hn⟩
  · intro n e hn hav hr
    unfold compare_retrievers
    apply mem_sortResults.mpr
    rw [compareLoop_eq_filterMap]
    apply List.mem_filterMap.mpr
    refine ⟨n, hn, ?_⟩
    unfold rowFor
    rw [if_pos (List.elem_eq_true_of_mem hav), hr]
  · intro n d hn hav hr
    unfold compare_retrievers
    apply mem_sortResults.mpr
    rw [compareLoop_eq_filterMap]
    apply List.mem_filterMap.mpr
    refine ⟨n, hn, ?_⟩
    unfold rowFor
    rw [if_pos (List.elem_eq_true_of_mem hav), hr]

/-- The empty run measurement. -/
def d0 : RunData := ⟨[], [], [], 0⟩

/-- Concrete runs for the isolation witness: `rerank` raises, everything
else succeeds with the empty measurement. -/
def exRun10 : String → Except String RunData :=
  fun n => if n = "rerank" then .error "boom" else .ok d0

/-- Witness for C10: with requested names `naive` (succeeds), `bogus`
(unknown), `rerank` (raises), the error row and the metrics row are both in
the table, and the error row's name is a known strategy. -/
theorem C10_witness :
    EvalRow.errorRow "rerank" "boom" ∈
      compare_retrievers false exRagas exRun10 [] ["naive", "bogus", "rerank"] ∧
    evaluate_single_retriever false (exRagas "naive" d0) "naive" [] d0 ∈
      compare_retrievers false exRagas exRun10 [] ["naive", "bogus", "rerank"] ∧
    rowName (EvalRow.errorRow "rerank" "boom") ∈ available_retriever_names :=
  ⟨(C10_per_retriever_isolation false exRagas exRun10 [] ["naive", "bogus", "rerank"]).2.1
      "rerank" "boom" (by simp) (by simp [available_retriever_names]) (by simp [exRun10]),
   (C10_per_retriever_isolation false exRagas exRun10 [] ["naive", "bogus", "rerank"]).2.2
      "naive" d0 (by simp) (by simp [available_retriever_names]) (by simp [exRun10]),
   ((C10_per_retriever_isolation false exRagas exRun10 [] ["naive", "bogus", "rerank"]).1
      (EvalRow.errorRow "rerank" "boom")
      ((C10_per_retriever_isolation false exRagas exRun10 [] ["naive", "bogus", "rerank"]).2.1
        "rerank" "boom" (by simp) (by simp [available_retriever_names])
        (by simp [exRun10]))).1⟩

end FeedbackAI
